import Mathlib

/-!
Shallow embedding of the CodeAlpha translation app (src/app/page.tsx: the
`TranslatorPage` client component, and the `/api/translate` route handler).

JavaScript strings are modelled as Lean `String`s; the JS string operations
used by the code (`trim`, `split("-")[0]`, `slice(0, 30)`, `toString` on a
millisecond timestamp) are embedded as operations on the character sequence.
`Date.now()` readings are passed explicitly as `Nat` parameters.  React
`useState` cells are gathered into an explicit state record, and each event
handler becomes a state-transition function.
-/

/-- Embedding of JS `String.prototype.trim` on the character sequence. -/
def jsTrim (s : String) : String :=
  ⟨List.reverse (List.dropWhile Char.isWhitespace
      (List.reverse (List.dropWhile Char.isWhitespace s.data)))⟩

/-- Embedding of JS `String.prototype.split(sep)` for a one-character
separator: the list of chunks between occurrences of `sep`.  Always returns
at least one chunk, like the JS original. -/
def jsSplit (sep : Char) : List Char → List (List Char)
  | [] => [[]]
  | c :: cs =>
    match jsSplit sep cs with
    | [] => [[]]
    | g :: gs => if c = sep then [] :: g :: gs else (c :: g) :: gs

/-- Embedding of JS `s.split(sep)[0]`. -/
def jsSplitHead (sep : Char) (s : String) : String :=
  ⟨(jsSplit sep s.data).headD []⟩

/-- Embedding of JS `s.slice(0, 30)` (used for thread titles). -/
def jsSlice30 (s : String) : String := ⟨s.data.take 30⟩

/-- `Message.role`: the TS union type `"user" | "assistant"`. -/
inductive Role where
  | user
  | assistant
deriving DecidableEq, Repr

/-- The `Message` record type of src/app/page.tsx. -/
structure Message where
  id : String
  role : Role
  text : String
  langLabel : String
  langCode : String
deriving DecidableEq, Repr

/-- The `ChatSession` record type of src/app/page.tsx. -/
structure ChatSession where
  id : String
  title : String
  messages : List Message
  createdAt : Nat
deriving DecidableEq, Repr

/-- One entry of the `LANGUAGES` array (named `LangOption` here because
`Language` is taken by the ambient library). -/
structure LangOption where
  code : String
  name : String
  label : String
deriving DecidableEq, Repr

/-- The static `LANGUAGES` registry of src/app/page.tsx. -/
def LANGUAGES : List LangOption :=
  [ ⟨"en-US", "English", "English"⟩,
    ⟨"es-ES", "Spanish", "Español"⟩,
    ⟨"fr-FR", "French", "Français"⟩,
    ⟨"de-DE", "German", "Deutsch"⟩,
    ⟨"zh-CN", "Chinese", "中文"⟩,
    ⟨"hi-IN", "Hindi", "हिन्दी"⟩,
    ⟨"ar-SA", "Arabic", "العربية"⟩ ]

/-- The `useState` cells of `TranslatorPage` that the chat logic touches. -/
structure AppState where
  chats : List ChatSession
  currentChatId : Option String
  isSidebarOpen : Bool
  inputText : String
  isTranslating : Bool
  sourceLang : String
  targetLang : String
deriving DecidableEq, Repr

/-- The initial state of the component (the `useState` initial values). -/
def initialAppState : AppState :=
  { chats := []
    currentChatId := none
    isSidebarOpen := false
    inputText := ""
    isTranslating := false
    sourceLang := "en-US"
    targetLang := "fr-FR" }

/-- `createNewChat` from src/app/page.tsx.  `now` is the `Date.now()`
reading.  Returns the updated state together with the returned chat id. -/
def createNewChat (now : Nat) (s : AppState) : AppState × String :=
  match s.chats with
  | mostRecent :: _ =>
    if mostRecent.messages.length = 0 then
      ({ s with currentChatId := some mostRecent.id, isSidebarOpen := false },
       mostRecent.id)
    else
      let newChat : ChatSession :=
        { id := Nat.repr now, title := "New Translation", messages := [],
          createdAt := now }
      ({ s with chats := newChat :: s.chats, currentChatId := some newChat.id,
                isSidebarOpen := false },
       newChat.id)
  | [] =>
    let newChat : ChatSession :=
      { id := Nat.repr now, title := "New Translation", messages := [],
        createdAt := now }
    ({ s with chats := newChat :: s.chats, currentChatId := some newChat.id,
              isSidebarOpen := false },
     newChat.id)

/-- `deleteChat` from src/app/page.tsx (the `e.stopPropagation()` call is
presentation-only and omitted). -/
def deleteChat (id : String) (s : AppState) : AppState :=
  let newChats := s.chats.filter (fun c => c.id ≠ id)
  if s.currentChatId = some id then
    { s with chats := newChats,
             currentChatId :=
               match newChats with
               | [] => none
               | c :: _ => some c.id }
  else
    { s with chats := newChats }

/-- The fallback used in `sourceObj`/`targetObj` lookups is `LANGUAGES[0]`
resp. `LANGUAGES[1]`; an out-of-range index would be `undefined`, modelled by
an all-empty record (never reached: `LANGUAGES` has seven entries). -/
def langAt (i : Nat) : LangOption := LANGUAGES.getD i ⟨"", "", ""⟩

/-- The user `Message` built by `handleTranslate` (id `Date.now().toString()`). -/
def userMessage (now : Nat) (text : String) (sourceObj : LangOption) : Message :=
  { id := Nat.repr now, role := .user, text := text,
    langLabel := sourceObj.label, langCode := sourceObj.code }

/-- The assistant `Message` built on a successful response
(id `(Date.now() + 1).toString()`). -/
def aiMessage (now : Nat) (translatedText : String) (targetObj : LangOption) :
    Message :=
  { id := Nat.repr (now + 1), role := .assistant, text := translatedText,
    langLabel := targetObj.label, langCode := targetObj.code }

/-- The fixed fallback text of the error message in the `catch` block. -/
def fallbackErrorText : String :=
  "⚠️ Error: Could not translate. The free API might be busy."

/-- The error `Message` built in the `catch` block of `handleTranslate`. -/
def errorMessage (now : Nat) : Message :=
  { id := Nat.repr (now + 1), role := .assistant, text := fallbackErrorText,
    langLabel := "System", langCode := "en-US" }

/-- The per-chat update performed when `handleTranslate` appends the user
message: the chat matching `activeChatId` gets the message appended and, if
it had no messages, its title set to `currentText.slice(0, 30) + "..."`. -/
def appendUserToChat (activeChatId currentText : String) (userMsg : Message)
    (chat : ChatSession) : ChatSession :=
  if chat.id = activeChatId then
    { chat with
      title := if chat.messages.length = 0
               then jsSlice30 currentText ++ "..." else chat.title,
      messages := chat.messages ++ [userMsg] }
  else chat

/-- The per-chat update appending a response (assistant or error) message. -/
def appendMsgToChat (activeChatId : String) (msg : Message)
    (chat : ChatSession) : ChatSession :=
  if chat.id = activeChatId then
    { chat with messages := chat.messages ++ [msg] }
  else chat

/-- Outcome of the `fetch("/api/translate", ...)` round trip as observed by
`handleTranslate`: either an ok response carrying `data.translatedText`, or
any failure (network error, non-ok status, upstream-reported error), all of
which land in the `catch` block. -/
inductive FetchResult where
  | ok (translatedText : String)
  | fail (err : String)
deriving DecidableEq, Repr

/-- A request in flight: the values `handleTranslate` captured before the
`await` and uses when the response arrives. -/
structure Pending where
  activeChatId : String
  text : String
  sourceLang : String
  targetLang : String
  targetObj : LangOption
deriving DecidableEq, Repr

/-- Component state plus the list of in-flight `/api/translate` requests,
in issue order. -/
structure Sys where
  app : AppState
  pending : List Pending
deriving DecidableEq, Repr

/-- The synchronous prefix of `handleTranslate` (up to and including issuing
the `fetch`): guard on `!inputText.trim()`, lazily create a chat when none is
current, append the user message (with the first-message title rule), clear
the input, set `isTranslating`, and record the issued request. -/
def handleTranslateStart (now : Nat) (sys : Sys) : Sys :=
  if jsTrim sys.app.inputText = "" then sys
  else
    let startState := sys.app
    let activeChatPair :=
      match startState.currentChatId with
      | some cid => (startState, cid)
      | none => createNewChat now startState
    let s0 := activeChatPair.1
    let activeChatId := activeChatPair.2
    let currentText := startState.inputText
    let sourceObj :=
      (LANGUAGES.find? (fun l => l.code = startState.sourceLang)).getD (langAt 0)
    let userMsg := userMessage now currentText sourceObj
    let targetObj :=
      (LANGUAGES.find? (fun l => l.code = startState.targetLang)).getD (langAt 1)
    { app :=
        { s0 with
          chats := s0.chats.map (appendUserToChat activeChatId currentText userMsg),
          inputText := "",
          isTranslating := true },
      pending := sys.pending ++
        [⟨activeChatId, currentText, startState.sourceLang,
          startState.targetLang, targetObj⟩] }

/-- The continuation of `handleTranslate` after the `await`: on success
append the assistant message, on any failure append the fixed error message;
the `finally` clause clears `isTranslating` in both cases.  `now` is the
`Date.now()` reading at response-processing time. -/
def handleResponse (now : Nat) (result : FetchResult) (p : Pending)
    (app : AppState) : AppState :=
  match result with
  | .ok translatedText =>
    { app with
      chats := app.chats.map
        (appendMsgToChat p.activeChatId (aiMessage now translatedText p.targetObj)),
      isTranslating := false }
  | .fail _ =>
    { app with
      chats := app.chats.map
        (appendMsgToChat p.activeChatId (errorMessage now)),
      isTranslating := false }

/-- UI events that drive the chat logic.  `clickSend` goes through the send
button, which is rendered with `disabled={!inputText.trim() || isTranslating}`;
`pressEnter` is the textarea `onKeyDown` handler for Enter without Shift,
which calls `handleTranslate()` directly; `respond` delivers the response of
the oldest in-flight request. -/
inductive Event where
  | setInput (text : String)
  | clickSend (now : Nat)
  | pressEnter (now : Nat)
  | newChatBtn (now : Nat)
  | deleteBtn (id : String)
  | respond (now : Nat) (result : FetchResult)

/-- One step of the event-driven system. -/
def step (sys : Sys) : Event → Sys
  | .setInput t => { sys with app := { sys.app with inputText := t } }
  | .clickSend now =>
    if jsTrim sys.app.inputText ≠ "" ∧ sys.app.isTranslating = false then
      handleTranslateStart now sys
    else sys
  | .pressEnter now => handleTranslateStart now sys
  | .newChatBtn now => { sys with app := (createNewChat now sys.app).1 }
  | .deleteBtn id => { sys with app := deleteChat id sys.app }
  | .respond now r =>
    match sys.pending with
    | [] => sys
    | p :: rest => { app := handleResponse now r p sys.app, pending := rest }

/-- Run a trace of events from a start state. -/
def runTrace (init : Sys) (es : List Event) : Sys := es.foldl step init

/-- The initial system: freshly mounted component, nothing in flight. -/
def initialSys : Sys := { app := initialAppState, pending := [] }

/-- The `langpair` computation of the `/api/translate` route handler
(src/app/api/translate/route.ts): `source` is `"en"` when `sourceLang` is
`"auto"`, else `sourceLang.split("-")[0]`; `target` is
`targetLang.split("-")[0]`; the pair is `source + "|" + target`. -/
def langPair (sourceLang targetLang : String) : String :=
  let source := if sourceLang = "auto" then "en" else jsSplitHead '-' sourceLang
  let target := jsSplitHead '-' targetLang
  source ++ "|" ++ target

/-- Concrete states used to instantiate theorems with hypotheses. -/
def msgHello : Message :=
  { id := "900", role := .user, text := "Hello", langLabel := "English",
    langCode := "en-US" }

def chatEmptyEx : ChatSession :=
  { id := "100", title := "New Translation", messages := [], createdAt := 100 }

def chatAEx : ChatSession :=
  { id := "2", title := "A", messages := [msgHello], createdAt := 2 }

def chatBEx : ChatSession :=
  { id := "1", title := "B", messages := [], createdAt := 1 }

/-- In both branches of `deleteChat`, the stored list becomes the filter. -/
theorem deleteChat_chats (id : String) (s : AppState) :
    (deleteChat id s).chats = s.chats.filter (fun c => c.id ≠ id) := by
  simp only [deleteChat]
  split <;> rfl

/-- Removing the one chat with a given id from a duplicate-free list drops
exactly one element. -/
theorem length_filter_ne_id (l : List ChatSession) (t : ChatSession)
    (hnodup : (l.map (fun c => c.id)).Nodup) (hmem : t ∈ l) :
    (l.filter (fun c => c.id ≠ t.id)).length + 1 = l.length := by
  induction l with
  | nil => cases hmem
  | cons c cs ih =>
    simp only [List.map_cons, List.nodup_cons] at hnodup
    rcases List.mem_cons.mp hmem with h | h
    · subst h
      simp [List.filter_cons]
      intro x hx heq
      exact hnodup.1 (heq ▸ List.mem_map.mpr ⟨x, hx, rfl⟩)
    · have hc : c.id ≠ t.id := by
        intro heq
        exact hnodup.1 (by rw [heq]; exact List.mem_map.mpr ⟨t, h, rfl⟩)
      have hih := ih hnodup.2 h
      simp only [List.filter_cons, hc] at hih ⊢
      simp only [ne_eq, hc, not_false_iff, decide_eq_true_eq, if_true] at *
      simp only [List.length_cons] at hih ⊢
      omega

/-- C1: when the most recently created thread (the head of the newest-first
list) has zero messages, `createNewChat` returns that thread's id, makes it
the active thread, and leaves the thread list — hence the thread count —
unchanged. -/
theorem C1_createNewChat_reuses_empty (now : Nat) (s : AppState)
    (c : ChatSession) (rest : List ChatSession)
    (hchats : s.chats = c :: rest) (hempty : c.messages = []) :
    (createNewChat now s).2 = c.id ∧
    (createNewChat now s).1.chats = s.chats ∧
    (createNewChat now s).1.currentChatId = some c.id ∧
    (createNewChat now s).1.chats.length = s.chats.length := by
  simp [createNewChat, hchats, hempty]

/-- C1 witness: a concrete state whose newest thread is empty. -/
theorem C1_witness :
    (createNewChat 500 { initialAppState with chats := [chatEmptyEx] }).2 =
      chatEmptyEx.id ∧
    (createNewChat 500 { initialAppState with chats := [chatEmptyEx] }).1.chats =
      [chatEmptyEx] ∧
    (createNewChat 500 { initialAppState with chats := [chatEmptyEx] }).1.currentChatId =
      some chatEmptyEx.id ∧
    (createNewChat 500 { initialAppState with chats := [chatEmptyEx] }).1.chats.length =
      ([chatEmptyEx] : List ChatSession).length := by
  have h := C1_createNewChat_reuses_empty 500
    { initialAppState with chats := [chatEmptyEx] } chatEmptyEx [] rfl rfl
  exact h

/-- C2: deleting a thread by id from a store whose thread ids are
duplicate-free removes exactly that thread (the count drops by one, no
remaining thread carries the id, every other thread survives, and the order
of the survivors is a sublist of the original); if the deleted thread was
active, the new active thread is the head of the remaining newest-first list
(none when nothing remains), otherwise the selection is unchanged. -/
theorem C2_deleteChat_removes_and_reselects (s : AppState) (t : ChatSession)
    (hnodup : (s.chats.map (fun c => c.id)).Nodup) (hmem : t ∈ s.chats) :
    (deleteChat t.id s).chats.length + 1 = s.chats.length ∧
    (∀ c ∈ (deleteChat t.id s).chats, c.id ≠ t.id) ∧
    (∀ c ∈ s.chats, c.id ≠ t.id → c ∈ (deleteChat t.id s).chats) ∧
    List.Sublist (deleteChat t.id s).chats s.chats ∧
    (s.currentChatId = some t.id →
      (deleteChat t.id s).currentChatId =
        (deleteChat t.id s).chats.head?.map (fun c => c.id)) ∧
    (s.currentChatId ≠ some t.id →
      (deleteChat t.id s).currentChatId = s.currentChatId) := by
  refine ⟨?_, ?_, ?_, ?_, ?_, ?_⟩
  · rw [deleteChat_chats]
    exact length_filter_ne_id s.chats t hnodup hmem
  · intro c hc
    rw [deleteChat_chats] at hc
    have := List.of_mem_filter hc
    simpa using this
  · intro c hc hne
    rw [deleteChat_chats]
    exact List.mem_filter.mpr ⟨hc, by simpa using hne⟩
  · rw [deleteChat_chats]
    exact List.filter_sublist s.chats
  · intro h
    simp only [deleteChat, h, if_pos]
    cases hfil : s.chats.filter (fun c => c.id ≠ t.id) with
    | nil => simp
    | cons c cs => simp
  · intro h
    simp only [deleteChat, if_neg h]

/-- C2 witness: deleting the active thread of a concrete two-thread store. -/
theorem C2_witness :
    (deleteChat chatAEx.id
        { initialAppState with chats := [chatAEx, chatBEx],
                               currentChatId := some "2" }).chats.length + 1 =
      ({ initialAppState with chats := [chatAEx, chatBEx],
                              currentChatId := some "2" } : AppState).chats.length ∧
    (deleteChat chatAEx.id
        { initialAppState with chats := [chatAEx, chatBEx],
                               currentChatId := some "2" }).currentChatId =
      (deleteChat chatAEx.id
        { initialAppState with chats := [chatAEx, chatBEx],
                               currentChatId := some "2" }).chats.head?.map
        (fun c => c.id) := by
  have h := C2_deleteChat_removes_and_reselects
    { initialAppState with chats := [chatAEx, chatBEx], currentChatId := some "2" }
    chatAEx (by decide) (by decide)
  exact ⟨h.1, h.2.2.2.2.1 (by decide)⟩

/-- C3 counterexample: the claim that a submission is rejected while one is
in flight fails.  `handleTranslate` itself only guards on blank input; the
`isTranslating` guard lives solely on the send button's `disabled` prop, and
the textarea's Enter-key handler calls `handleTranslate` directly.  Typing
during an in-flight request and pressing Enter therefore starts a second
concurrent request: after the concrete reachable trace below, two requests
are in flight at once. -/
theorem C3_counterexample :
    (runTrace initialSys
      [.setInput "hi", .pressEnter 1000, .setInput "yo",
       .pressEnter 1500]).pending.length = 2 ∧
    (runTrace initialSys
      [.setInput "hi", .pressEnter 1000, .setInput "yo",
       .pressEnter 1500]).app.isTranslating = true := by
  decide

/-- C3 amended: a submission attempt through `handleTranslate` is rejected —
state unchanged, no request issued — whenever the input is empty or
whitespace-only, and a click on the send button is rejected whenever a
submission is in flight; but `handleTranslate` itself does not check
`isTranslating`, so the Enter-key path can start a second concurrent request
(see the counterexample). -/
theorem C3_amended_guards (now : Nat) (sys : Sys) :
    (jsTrim sys.app.inputText = "" → handleTranslateStart now sys = sys) ∧
    (sys.app.isTranslating = true → step sys (.clickSend now) = sys) := by
  constructor
  · intro h
    simp [handleTranslateStart, h]
  · intro h
    simp [step, h]

/-- A concrete state with whitespace-only input, and one with a submission
in flight. -/
def blankInputSys : Sys :=
  { app := { initialAppState with inputText := "   " }, pending := [] }

def inFlightSys : Sys :=
  { app := { initialAppState with inputText := "go", isTranslating := true },
    pending := [] }

/-- C3 witness: blank input at a concrete state, and a send-button click
while a concrete submission is in flight. -/
theorem C3_witness :
    handleTranslateStart 7 blankInputSys = blankInputSys ∧
    step inFlightSys (.clickSend 8) = inFlightSys :=
  ⟨(C3_amended_guards 7 blankInputSys).1 (by decide),
   (C3_amended_guards 8 inFlightSys).2 rfl⟩

/-- C4: on any failed translation call the active thread gains exactly one
assistant-role message carrying the fixed fallback error text with langLabel
"System" (which is not the label of any supported language), every other
thread is untouched, and the machine returns to idle (`isTranslating`
false).  The embedding is a total function, so the failure never escapes as
an exception. -/
theorem C4_failure_appends_error_message (now : Nat) (err : String)
    (p : Pending) (s : AppState) (c : ChatSession) (hmem : c ∈ s.chats)
    (hid : c.id = p.activeChatId) :
    (handleResponse now (.fail err) p s).isTranslating = false ∧
    { c with messages := c.messages ++ [errorMessage now] } ∈
      (handleResponse now (.fail err) p s).chats ∧
    (∀ d ∈ s.chats, d.id ≠ p.activeChatId →
      d ∈ (handleResponse now (.fail err) p s).chats) ∧
    (errorMessage now).role = Role.assistant ∧
    (errorMessage now).text = fallbackErrorText ∧
    (errorMessage now).langLabel = "System" ∧
    (∀ l ∈ LANGUAGES, l.label ≠ "System") := by
  refine ⟨rfl, ?_, ?_, rfl, rfl, rfl, by decide⟩
  · have h := List.mem_map_of_mem
      (appendMsgToChat p.activeChatId (errorMessage now)) hmem
    simpa [handleResponse, appendMsgToChat, hid] using h
  · intro d hd hne
    have h := List.mem_map_of_mem
      (appendMsgToChat p.activeChatId (errorMessage now)) hd
    simpa [handleResponse, appendMsgToChat, hne] using h

/-- C4 witness: a concrete failing response against a one-thread store. -/
theorem C4_witness :
    (handleResponse 3000 (.fail "boom")
        ⟨"2", "Hello", "en-US", "fr-FR", langAt 2⟩
        { initialAppState with chats := [chatAEx],
                               currentChatId := some "2" }).isTranslating =
      false ∧
    { chatAEx with messages := chatAEx.messages ++ [errorMessage 3000] } ∈
      (handleResponse 3000 (.fail "boom")
        ⟨"2", "Hello", "en-US", "fr-FR", langAt 2⟩
        { initialAppState with chats := [chatAEx],
                               currentChatId := some "2" }).chats ∧
    (errorMessage 3000).langLabel = "System" := by
  have h := C4_failure_appends_error_message 3000 "boom"
    ⟨"2", "Hello", "en-US", "fr-FR", langAt 2⟩
    { initialAppState with chats := [chatAEx], currentChatId := some "2" }
    chatAEx (by decide) (by decide)
  exact ⟨h.1, h.2.1, h.2.2.2.2.2.1⟩

/-- `jsSplit` always yields at least one chunk. -/
theorem jsSplit_ne_nil (sep : Char) (l : List Char) : jsSplit sep l ≠ [] := by
  cases l with
  | nil => simp [jsSplit]
  | cons c cs =>
    simp only [jsSplit]
    split
    · simp
    · split <;> simp

/-- The first chunk of `jsSplit` is the prefix before the first separator. -/
theorem jsSplit_headD (sep : Char) (l : List Char) :
    (jsSplit sep l).headD [] = l.takeWhile (fun c => c ≠ sep) := by
  induction l with
  | nil => rfl
  | cons c cs ih =>
    simp only [jsSplit]
    cases h : jsSplit sep cs with
    | nil => exact absurd h (jsSplit_ne_nil sep cs)
    | cons g gs =>
      rw [h] at ih
      by_cases hc : c = sep
      · simp [hc]
      · simp [hc, List.takeWhile_cons]
        simpa using ih

/-- The primary subtag in the spec's words: the portion of the locale code
before the first "-". -/
def primarySubtag (s : String) : String :=
  ⟨s.data.takeWhile (fun c => c ≠ '-')⟩

/-- C5: the route handler's `langpair` is always
`source-subtag ++ "|" ++ target-subtag` where each locale code is reduced to
its primary subtag, and an `"auto"` source is replaced by `"en"` before any
subtag computation — in particular `"en-US"` and `"en-GB"` both reduce to
`"en"`, and `"auto"` is never transmitted as a pair component. -/
theorem C5_langPair_primary_subtags (sourceLang targetLang : String) :
    langPair sourceLang targetLang =
      (if sourceLang = "auto" then "en" else primarySubtag sourceLang) ++ "|" ++
        primarySubtag targetLang ∧
    primarySubtag "en-US" = "en" ∧
    primarySubtag "en-GB" = "en" ∧
    langPair "auto" "fr-FR" = "en|fr" ∧
    langPair "en-US" "fr-FR" = "en|fr" := by
  refine ⟨?_, by decide, by decide, by decide, by decide⟩
  simp only [langPair, jsSplitHead, primarySubtag, jsSplit_headD]

/-- C9: appending the user message to the active chat sets the title to the
30-character prefix of the text followed by "..." exactly when the chat had
no messages, leaves the title unchanged otherwise, always appends the
message at the end, and the literal first submission "Hello" produces the
title "Hello...". -/
theorem C9_first_message_title (activeChatId currentText : String)
    (msg : Message) (chat : ChatSession) (hid : chat.id = activeChatId) :
    (chat.messages = [] →
      (appendUserToChat activeChatId currentText msg chat).title =
        jsSlice30 currentText ++ "...") ∧
    (chat.messages ≠ [] →
      (appendUserToChat activeChatId currentText msg chat).title =
        chat.title) ∧
    (appendUserToChat activeChatId currentText msg chat).messages =
      chat.messages ++ [msg] ∧
    jsSlice30 "Hello" ++ "..." = "Hello..." := by
  refine ⟨?_, ?_, ?_, by decide⟩
  · intro h
    simp [appendUserToChat, hid, h]
  · intro h
    simp [appendUserToChat, hid, List.length_eq_zero.not.mpr h]
  · simp [appendUserToChat, hid]

/-- C9 witness: the first message "Hello" in a concrete empty thread. -/
theorem C9_witness :
    (appendUserToChat "100" "Hello" msgHello chatEmptyEx).title = "Hello..." ∧
    (appendUserToChat "2" "More" msgHello chatAEx).title = chatAEx.title := by
  have h1 := C9_first_message_title "100" "Hello" msgHello chatEmptyEx rfl
  have h2 := C9_first_message_title "2" "More" msgHello chatAEx rfl
  exact ⟨by rw [h1.1 rfl]; decide, h2.2.1 (by decide)⟩

/-- Modelled from the spec: the persisted blob under the
"translation-chats" key is the `JSON.stringify` image of the thread list and
loading applies `JSON.parse`.  `JSON.stringify`/`JSON.parse` are platform
primitives absent from the repository, so the blob is modelled at the level
of the JSON value tree they serialize. -/
inductive Json where
  | str (s : String)
  | num (n : Nat)
  | arr (elems : List Json)
  | obj (fields : List (String × Json))

/-- The JSON string for a `Message.role`. -/
def roleString : Role → String
  | .user => "user"
  | .assistant => "assistant"

/-- `JSON.stringify` image of one `Message`. -/
def encodeMessage (m : Message) : Json :=
  .obj [("id", .str m.id), ("role", .str (roleString m.role)),
        ("text", .str m.text), ("langLabel", .str m.langLabel),
        ("langCode", .str m.langCode)]

/-- `JSON.stringify` image of one `ChatSession`. -/
def encodeChat (c : ChatSession) : Json :=
  .obj [("id", .str c.id), ("title", .str c.title),
        ("messages", .arr (c.messages.map encodeMessage)),
        ("createdAt", .num c.createdAt)]

/-- The serialized blob written by the save effect:
`JSON.stringify(chats)`. -/
def stringifyChats (chats : List ChatSession) : Json :=
  .arr (chats.map encodeChat)

/-- Field lookup in a JSON object. -/
def getField (k : String) : Json → Option Json
  | .obj fields => (fields.find? (fun f => f.1 = k)).map (fun f => f.2)
  | _ => none

/-- Read a JSON string. -/
def asString : Json → Option String
  | .str s => some s
  | _ => none

/-- Read a JSON number. -/
def asNum : Json → Option Nat
  | .num n => some n
  | _ => none

/-- Recover a `Role` from its JSON string. -/
def decodeRole (s : String) : Option Role :=
  if s = "user" then some .user
  else if s = "assistant" then some .assistant
  else none

/-- Recover a `Message` from its JSON image. -/
def decodeMessage (j : Json) : Option Message := do
  let mid ← (getField "id" j).bind asString
  let mrole ← ((getField "role" j).bind asString).bind decodeRole
  let mtext ← (getField "text" j).bind asString
  let mlangLabel ← (getField "langLabel" j).bind asString
  let mlangCode ← (getField "langCode" j).bind asString
  pure { id := mid, role := mrole, text := mtext, langLabel := mlangLabel,
         langCode := mlangCode }

/-- Recover a message list element-wise. -/
def decodeMessages : List Json → Option (List Message)
  | [] => some []
  | j :: js =>
    match decodeMessage j, decodeMessages js with
    | some m, some ms => some (m :: ms)
    | _, _ => none

/-- Recover a `ChatSession` from its JSON image. -/
def decodeChat (j : Json) : Option ChatSession := do
  let cid ← (getField "id" j).bind asString
  let ctitle ← (getField "title" j).bind asString
  let cmsgs ←
    match getField "messages" j with
    | some (.arr elems) => decodeMessages elems
    | _ => none
  let ccreatedAt ← (getField "createdAt" j).bind asNum
  pure { id := cid, title := ctitle, messages := cmsgs,
         createdAt := ccreatedAt }

/-- Recover a chat list element-wise. -/
def decodeChats : List Json → Option (List ChatSession)
  | [] => some []
  | j :: js =>
    match decodeChat j, decodeChats js with
    | some c, some cs => some (c :: cs)
    | _, _ => none

/-- `JSON.parse` of a persisted blob back into a thread list. -/
def parseChats : Json → Option (List ChatSession)
  | .arr elems => decodeChats elems
  | _ => none

/-- A message round-trips through its JSON image. -/
theorem decodeMessage_encodeMessage (m : Message) :
    decodeMessage (encodeMessage m) = some m := by
  cases m with
  | mk mid mrole mtext mlangLabel mlangCode => cases mrole <;> rfl

/-- A message list round-trips element-wise. -/
theorem decodeMessages_encode (msgs : List Message) :
    decodeMessages (msgs.map encodeMessage) = some msgs := by
  induction msgs with
  | nil => rfl
  | cons m ms ih =>
    simp only [List.map_cons, decodeMessages, decodeMessage_encodeMessage, ih]

/-- A chat round-trips through its JSON image. -/
theorem decodeChat_encodeChat (c : ChatSession) :
    decodeChat (encodeChat c) = some c := by
  cases c with
  | mk cid ctitle cmsgs ccreatedAt =>
    simp [decodeChat, encodeChat, getField, List.find?, asString, asNum,
      decodeMessages_encode]

/-- C6: the persistence round trip — parsing the serialized image of any
thread list recovers a list deep-equal to the input. -/
theorem C6_persistence_round_trip (chats : List ChatSession) :
    parseChats (stringifyChats chats) = some chats := by
  simp only [stringifyChats, parseChats]
  induction chats with
  | nil => rfl
  | cons c cs ih =>
    simp only [List.map_cons, decodeChats, decodeChat_encodeChat, ih]

/-- Observable outcome of the mount-time load effect: the thread list and
selection it installs, and whether the catch block logged a parse failure. -/
structure LoadOutcome where
  chats : List ChatSession
  currentChatId : Option String
  loggedError : Bool
deriving DecidableEq, Repr

/-- The first `useEffect` of `TranslatorPage` (the load path).  The stored
blob is `none` when the "translation-chats" key is absent, `some none` when
it is present but `JSON.parse` throws (the catch logs and leaves the state
at its initial values), and `some (some parsed)` when parsing succeeds, in
which case the parsed list is installed and its first thread selected. -/
def loadEffect (stored : Option (Option (List ChatSession))) : LoadOutcome :=
  match stored with
  | none => { chats := [], currentChatId := none, loggedError := false }
  | some none => { chats := [], currentChatId := none, loggedError := true }
  | some (some parsed) =>
    { chats := parsed,
      currentChatId :=
        match parsed with
        | [] => none
        | c :: _ => some c.id,
      loggedError := false }

/-- C7: a present but malformed blob degrades to the empty thread list with
a logged (non-fatal, not user-visible) warning; the load path is a total
function, so nothing is thrown out of it, and a well-formed blob installs
exactly the parsed list. -/
theorem C7_malformed_blob_degrades :
    loadEffect (some none) =
      { chats := [], currentChatId := none, loggedError := true } ∧
    loadEffect none =
      { chats := [], currentChatId := none, loggedError := false } ∧
    (∀ parsed : List ChatSession, (loadEffect (some (some parsed))).chats = parsed) ∧
    (∀ parsed : List ChatSession,
      (loadEffect (some (some parsed))).loggedError = false) :=
  ⟨rfl, rfl, fun _ => rfl, fun _ => rfl⟩

/-- The second `useEffect` of `TranslatorPage` (the save path): the list is
written back whenever it is non-empty, or empty while the storage key is
already present; otherwise the slot is left as it was. -/
def saveEffect (chats : List ChatSession) (stored : Option Json) :
    Option Json :=
  if chats.length > 0 ∨ (chats.length = 0 ∧ stored.isSome) then
    some (stringifyChats chats)
  else stored

/-- C8: once the storage key exists, every change to the thread list —
including a change to the empty list — is written back, so the slot is never
absent again; before any save, an empty list writes nothing, and the
persisted empty list is distinct from the absent slot. -/
theorem C8_persistence_slot_invariant (chats : List ChatSession)
    (stored : Option Json) :
    (stored.isSome = true →
      saveEffect chats stored = some (stringifyChats chats)) ∧
    saveEffect [] none = none ∧
    some (stringifyChats []) ≠ (none : Option Json) := by
  refine ⟨?_, rfl, by simp⟩
  intro h
  cases chats with
  | nil => simp [saveEffect, h]
  | cons c cs => simp [saveEffect]

/-- C8 witness: after a concrete first save, clearing the list to empty is
still written back. -/
theorem C8_witness :
    saveEffect [] (some (stringifyChats [chatAEx])) =
      some (stringifyChats []) :=
  (C8_persistence_slot_invariant [] (some (stringifyChats [chatAEx]))).1 rfl

/-- The message appended when the response of a submission is processed:
the assistant message on success, the catch-block error message on failure
(both carry id `(Date.now() + 1).toString()`). -/
def responseMessage (now : Nat) (res : FetchResult) (targetObj : LangOption) :
    Message :=
  match res with
  | .ok t => aiMessage now t targetObj
  | .fail _ => errorMessage now

/-- One complete submission round against the chat it targets: the
user-message append performed by `handleTranslate`, then the response
append.  `sub.1` is the `Date.now()` reading at submission time, `sub.2`
the reading when the response is processed. -/
def runSubmission (src tgt : LangOption) (text : String) (res : FetchResult)
    (chat : ChatSession) (sub : Nat × Nat) : ChatSession :=
  appendMsgToChat chat.id (responseMessage sub.2 res tgt)
    (appendUserToChat chat.id text (userMessage sub.1 text src) chat)

/-- A sequence of submission rounds against one chat. -/
def runSubmissions (src tgt : LangOption) (text : String) (res : FetchResult)
    (chat : ChatSession) (subs : List (Nat × Nat)) : ChatSession :=
  subs.foldl (runSubmission src tgt text res) chat

/-- The message ids generated by a sequence of submissions: each round
contributes `Date.now().toString()` for the user message and
`(Date.now() + 1).toString()` for the response message. -/
def submissionIds : List (Nat × Nat) → List String
  | [] => []
  | sub :: subs => Nat.repr sub.1 :: Nat.repr (sub.2 + 1) :: submissionIds subs

/-- A response message carries id `(now + 1).toString()` in both cases. -/
theorem responseMessage_id (now : Nat) (res : FetchResult)
    (tgt : LangOption) : (responseMessage now res tgt).id = Nat.repr (now + 1) := by
  cases res <;> rfl

/-- One submission round appends exactly the user and response messages and
keeps the chat id. -/
theorem runSubmission_messages (src tgt : LangOption) (text : String)
    (res : FetchResult) (chat : ChatSession) (sub : Nat × Nat) :
    (runSubmission src tgt text res chat sub).messages =
      chat.messages ++
        [userMessage sub.1 text src, responseMessage sub.2 res tgt] ∧
    (runSubmission src tgt text res chat sub).id = chat.id := by
  constructor <;> simp [runSubmission, appendUserToChat, appendMsgToChat]

/-- The ids accumulated by a submission sequence. -/
theorem runSubmissions_ids (src tgt : LangOption) (text : String)
    (res : FetchResult) (chat : ChatSession) (subs : List (Nat × Nat)) :
    (runSubmissions src tgt text res chat subs).messages.map (fun m => m.id) =
      chat.messages.map (fun m => m.id) ++ submissionIds subs := by
  induction subs generalizing chat with
  | nil => simp [runSubmissions, submissionIds]
  | cons sub subs ih =>
    have hmsg := runSubmission_messages src tgt text res chat sub
    simp only [runSubmissions, List.foldl_cons] at *
    rw [ih, hmsg.1, submissionIds]
    simp [userMessage, responseMessage_id]

/-- C10 counterexample: the ids are not always unique within a thread.
With the strictly increasing clock readings 1000 (first submission), 2000
(first response processed, so the assistant message gets id "2001"), 2001
(second submission, user message id "2001"), 3000 (second response), the
thread holds two messages with id "2001".  The trace below drives the full
event machine through exactly that schedule. -/
theorem C10_counterexample :
    ¬ (((runTrace initialSys
          [.setInput "hi", .pressEnter 1000, .respond 2000 (.ok "salut"),
           .setInput "yo", .pressEnter 2001, .respond 3000 (.ok "bien")]
        ).app.chats.headD chatEmptyEx).messages.map (fun m => m.id)).Nodup := by
  decide

/-- C10 amended: message ids within a thread are unique provided the
clock-derived id strings of the submission schedule are pairwise distinct
(the code itself does not enforce this: a submission landing on the
millisecond right after a response's `Date.now()` reading collides with the
`+ 1` id of that response, as the counterexample shows). -/
theorem C10_amended_ids_unique (src tgt : LangOption) (text : String)
    (res : FetchResult) (chat : ChatSession) (subs : List (Nat × Nat))
    (hempty : chat.messages = []) (hnodup : (submissionIds subs).Nodup) :
    ((runSubmissions src tgt text res chat subs).messages.map
      (fun m => m.id)).Nodup := by
  rw [runSubmissions_ids, hempty]
  simpa using hnodup

/-- C10 witness: a concrete schedule with well-separated clock readings. -/
theorem C10_witness :
    ((runSubmissions (langAt 0) (langAt 2) "hi" (.ok "salut") chatEmptyEx
        [(1000, 2000), (3000, 4000)]).messages.map (fun m => m.id)).Nodup :=
  C10_amended_ids_unique (langAt 0) (langAt 2) "hi" (.ok "salut") chatEmptyEx
    [(1000, 2000), (3000, 4000)] rfl (by decide)
